import Mathlib

/-!
Verification of the d-di drug-interaction client (src/index.tsx).

The source is a single-file React application. We shallowly embed the parts
of it that carry logic:

* the JavaScript runtime pieces the component leans on: String.prototype.trim
  (jsTrim), JSON.parse (Json.parse, a fuelled recursive-descent parser over
  the character list), and localStorage (an association list with setItem,
  getItem and clear);
* the component state (AppState: the seven useState cells of App plus the
  persisted store) and its operations handleStart (lines 50-57),
  checkInteractions (lines 59-109, with the awaited generateContent call
  modelled as a ServiceOutcome: it either throws or returns a response whose
  text field may be absent) and the reset button (line 270);
* the render rules: the onboarding gate (line 111), the disabled attributes
  (lines 135 and 177), AlertIcon (lines 28-38) and the results block
  (lines 197-252).

State updates inside one event handler are modelled as a single state
transformation, matching the observable behaviour of the batched setState
calls of the source.
-/

/-! ## JavaScript string trimming

String.prototype.trim removes leading and trailing WhiteSpace and
LineTerminator code points. jsWhitespace lists them (tab, line feed,
vertical tab, form feed, carriage return, space, no-break space, the
Unicode space separators, the line and paragraph separators, and the
byte-order mark). -/

def jsWhitespace (c : Char) : Bool :=
  c = ' ' || c = '\t' || c = '\n' || c = '\r' || c = '\x0b' || c = '\x0c' ||
  c.toNat = 0xa0 || c.toNat = 0x1680 || (0x2000 ≤ c.toNat && c.toNat ≤ 0x200a) ||
  c.toNat = 0x2028 || c.toNat = 0x2029 || c.toNat = 0x202f || c.toNat = 0x205f ||
  c.toNat = 0x3000 || c.toNat = 0xfeff

/-- JavaScript String.prototype.trim: drop leading and trailing whitespace. -/
def jsTrim (s : String) : String :=
  ⟨((s.data.dropWhile jsWhitespace).reverse.dropWhile jsWhitespace).reverse⟩

/-! ## JSON values and JSON.parse

Json is the type of JavaScript values JSON.parse can produce. Numbers keep
their source lexeme (no claim depends on numeric arithmetic, so we avoid
committing to a float semantics); objects keep their field list in source
order (JSON.parse keeps the last binding of a duplicated key, a difference
no claim observes since the parsed value is only ever stored whole). -/

inductive Json where
  | null
  | bool (b : Bool)
  | num (lexeme : String)
  | str (s : String)
  | arr (elems : List Json)
  | obj (fields : List (String × Json))

/-- The opening-brace character, written by code point to keep brace
characters out of literals. -/
def lbraceChar : Char := Char.ofNat 123

/-- The closing-brace character. -/
def rbraceChar : Char := Char.ofNat 125

/-- The whitespace JSON.parse skips between tokens. -/
def jsonWs (c : Char) : Bool :=
  c = ' ' || c = '\t' || c = '\n' || c = '\r'

def skipJsonWs : List Char → List Char
  | [] => []
  | c :: r => if jsonWs c then skipJsonWs r else c :: r

def hexDigitVal (c : Char) : Option Nat :=
  if '0' ≤ c && c ≤ '9' then some (c.toNat - 48)
  else if 'a' ≤ c && c ≤ 'f' then some (c.toNat - 97 + 10)
  else if 'A' ≤ c && c ≤ 'F' then some (c.toNat - 65 + 10)
  else none

def isJsonDigit (c : Char) : Bool := '0' ≤ c && c ≤ '9'

def consChar (c : Char) : Option (List Char × List Char) → Option (List Char × List Char)
  | some (content, rest) => some (c :: content, rest)
  | none => none

/-- Parse the body of a JSON string literal after the opening quote:
returns the decoded characters and the input after the closing quote.
Raw control characters are rejected, the eight single-character escapes
and the uXXXX escape are decoded (a uXXXX escape naming an invalid scalar,
such as a lone surrogate half, is approximated by Char.ofNat, which no
claim observes). -/
def parseStringRest : List Char → Option (List Char × List Char)
  | [] => none
  | '\\' :: '\"' :: r => consChar '\"' (parseStringRest r)
  | '\\' :: '\\' :: r => consChar '\\' (parseStringRest r)
  | '\\' :: '/' :: r => consChar '/' (parseStringRest r)
  | '\\' :: 'b' :: r => consChar '\x08' (parseStringRest r)
  | '\\' :: 'f' :: r => consChar '\x0c' (parseStringRest r)
  | '\\' :: 'n' :: r => consChar '\n' (parseStringRest r)
  | '\\' :: 'r' :: r => consChar '\r' (parseStringRest r)
  | '\\' :: 't' :: r => consChar '\t' (parseStringRest r)
  | '\\' :: 'u' :: a :: b :: c :: d :: r =>
    match hexDigitVal a, hexDigitVal b, hexDigitVal c, hexDigitVal d with
    | some ha, some hb, some hc, some hd =>
      consChar (Char.ofNat (((ha * 16 + hb) * 16 + hc) * 16 + hd)) (parseStringRest r)
    | _, _, _, _ => none
  | '\\' :: _ => none
  | c :: r =>
    if c = '\"' then some ([], r)
    else if c.toNat < 32 then none
    else consChar c (parseStringRest r)

/-- The integer part of a JSON number: a single 0, or a nonzero digit
followed by digits. -/
def parseIntPart : List Char → Option (List Char × List Char)
  | [] => none
  | c :: r =>
    if c = '0' then some ([c], r)
    else if isJsonDigit c then some (c :: r.takeWhile isJsonDigit, r.dropWhile isJsonDigit)
    else none

/-- The optional fraction and exponent of a JSON number. A malformed tail
(a dot or an e with no digits) is left unconsumed; the caller then fails
on the leftover character, as JSON.parse does. -/
def numberTail (cs : List Char) : List Char × List Char :=
  let (fracPart, cs1) :=
    match cs with
    | '.' :: r =>
      let ds := r.takeWhile isJsonDigit
      if ds = [] then (([] : List Char), cs) else ('.' :: ds, r.dropWhile isJsonDigit)
    | _ => ([], cs)
  match cs1 with
  | c :: r =>
    if c = 'e' || c = 'E' then
      match r with
      | s :: r2 =>
        if s = '+' || s = '-' then
          let ds := r2.takeWhile isJsonDigit
          if ds = [] then (fracPart, cs1)
          else (fracPart ++ c :: s :: ds, r2.dropWhile isJsonDigit)
        else
          let ds := r.takeWhile isJsonDigit
          if ds = [] then (fracPart, cs1)
          else (fracPart ++ c :: ds, r.dropWhile isJsonDigit)
      | [] => (fracPart, cs1)
    else (fracPart, cs1)
  | [] => (fracPart, cs1)

/-- A JSON number lexeme: optional minus, integer part, optional fraction
and exponent. -/
def parseNumber (cs : List Char) : Option (String × List Char) :=
  match cs with
  | '-' :: r =>
    match parseIntPart r with
    | some (ip, rest) =>
      let (tail, rest2) := numberTail rest
      some (⟨'-' :: (ip ++ tail)⟩, rest2)
    | none => none
  | _ =>
    match parseIntPart cs with
    | some (ip, rest) =>
      let (tail, rest2) := numberTail rest
      some (⟨ip ++ tail⟩, rest2)
    | none => none

/-! The recursive descent over values, array elements and object fields.
The three functions recurse on an explicit fuel so that the recursion is
structural and closed calls reduce in the kernel; parseJsonTop passes fuel
proportional to the input length, which dominates the recursion depth of
any input the grammar accepts. -/

mutual

def parseVal : Nat → List Char → Option (Json × List Char)
  | 0, _ => none
  | fuel + 1, cs =>
    match skipJsonWs cs with
    | 't' :: 'r' :: 'u' :: 'e' :: r => some (.bool true, r)
    | 'f' :: 'a' :: 'l' :: 's' :: 'e' :: r => some (.bool false, r)
    | 'n' :: 'u' :: 'l' :: 'l' :: r => some (.null, r)
    | '\"' :: r =>
      match parseStringRest r with
      | some (content, rest) => some (.str ⟨content⟩, rest)
      | none => none
    | '[' :: r =>
      match skipJsonWs r with
      | ']' :: r2 => some (.arr [], r2)
      | _ =>
        match parseElems fuel r with
        | some (es, rest) => some (.arr es, rest)
        | none => none
    | c :: r =>
      if c = lbraceChar then
        match skipJsonWs r with
        | c2 :: r2 =>
          if c2 = rbraceChar then some (.obj [], r2)
          else
            match parseFields fuel r with
            | some (fs, rest) => some (.obj fs, rest)
            | none => none
        | [] => none
      else
        match parseNumber (c :: r) with
        | some (lex, rest) => some (.num lex, rest)
        | none => none
    | [] => none

def parseElems : Nat → List Char → Option (List Json × List Char)
  | 0, _ => none
  | fuel + 1, cs =>
    match parseVal fuel cs with
    | some (j, rest) =>
      match skipJsonWs rest with
      | ',' :: r2 =>
        match parseElems fuel r2 with
        | some (es, r3) => some (j :: es, r3)
        | none => none
      | ']' :: r2 => some ([j], r2)
      | _ => none
    | none => none

def parseFields : Nat → List Char → Option (List (String × Json) × List Char)
  | 0, _ => none
  | fuel + 1, cs =>
    match skipJsonWs cs with
    | '\"' :: r =>
      match parseStringRest r with
      | some (key, r2) =>
        match skipJsonWs r2 with
        | ':' :: r3 =>
          match parseVal fuel r3 with
          | some (v, r4) =>
            match skipJsonWs r4 with
            | c :: r5 =>
              if c = ',' then
                match parseFields fuel r5 with
                | some (fs, r6) => some ((⟨key⟩, v) :: fs, r6)
                | none => none
              else if c = rbraceChar then some ([(⟨key⟩, v)], r5)
              else none
            | [] => none
          | none => none
        | _ => none
      | none => none
    | _ => none

end

/-- JSON.parse: parse one value and require only whitespace after it.
A None result models the SyntaxError JSON.parse throws. -/
def Json.parse (text : String) : Option Json :=
  match parseVal (2 * text.data.length + 8) text.data with
  | some (j, rest) => if skipJsonWs rest = [] then some j else none
  | none => none

/-! ## localStorage

An association list of string keys and string values. setItem overwrites
an existing binding in place or appends a new one; getItem returns the
bound value; clear wipes every key of the namespace. -/

def Storage := List (String × String)

def Storage.setItem : Storage → String → String → Storage
  | [], k, v => [(k, v)]
  | (k0, v0) :: rest, k, v =>
    if k0 = k then (k, v) :: rest else (k0, v0) :: Storage.setItem rest k v

def Storage.getItem : Storage → String → Option String
  | [], _ => none
  | (k0, v0) :: rest, k => if k0 = k then some v0 else Storage.getItem rest k

def Storage.clear (_ : Storage) : Storage := []

/-! ## Component state and operations -/

/-- The state of the App component: the persisted store plus the seven
useState cells declared on lines 42-48 of src/index.tsx. -/
structure AppState where
  storage : Storage
  onboarded : Bool
  agentName : String
  inputName : String
  drugs : String
  loading : Bool
  results : Option Json
  error : Option String

/-- The initial state on load (lines 42-48): onboarded is whether the
persisted d-di-onboarded value is the string true, agentName is the
persisted d-di-agent-name value or the empty string, every other cell
starts empty, not loading, with no results and no error. -/
def initState (storage : Storage) : AppState :=
  { storage := storage
    onboarded := storage.getItem "d-di-onboarded" == some "true"
    agentName := (storage.getItem "d-di-agent-name").getD ""
    inputName := ""
    drugs := ""
    loading := false
    results := none
    error := none }

/-- handleStart (lines 50-57): when the typed name trims to something
non-empty, persist the trimmed name and the onboarded flag and move the
session to onboarded; otherwise do nothing. -/
def handleStart (s : AppState) : AppState :=
  if jsTrim s.inputName ≠ "" then
    { s with
      storage := (s.storage.setItem "d-di-agent-name" (jsTrim s.inputName)).setItem
        "d-di-onboarded" "true"
      agentName := jsTrim s.inputName
      onboarded := true }
  else s

/-- The one user-visible error message (line 105). -/
def fetchErrorMessage : String :=
  "Failed to fetch interactions. Please ensure you enter valid drug names."

/-- The awaited generateContent call as seen by checkInteractions: the
call either throws, or resolves to a response whose text field is a
string or absent. -/
inductive ServiceOutcome where
  | throws
  | returns (text : Option String)

/-- The argument the source gives JSON.parse (line 101): the response
text, with the falsy values (absent, empty string) replaced by the empty
object literal. -/
def textOrEmptyObject : Option String → String
  | none => "\x7b\x7d"
  | some t => if t = "" then "\x7b\x7d" else t

/-- Lines 61-63: the synchronous prefix of checkInteractions sets loading
and clears any prior error and any prior results before the request is
sent. -/
def startQuery (s : AppState) : AppState :=
  { s with loading := true, error := none, results := none }

/-- Lines 65-108: the continuation of checkInteractions once the service
call settles. A throw, or a response text JSON.parse rejects, lands in the
catch block, which stores the generic error message; otherwise the parsed
value is stored as the results, unvalidated. The finally block drops
loading either way. -/
def resolveQuery (s : AppState) : ServiceOutcome → AppState
  | .throws => { s with error := some fetchErrorMessage, loading := false }
  | .returns text =>
    match Json.parse (textOrEmptyObject text) with
    | some data => { s with results := some data, loading := false }
    | none => { s with error := some fetchErrorMessage, loading := false }

/-- checkInteractions (lines 59-109) end to end: a no-op when the drug
text trims to empty (line 60), otherwise the Loading prefix followed by
the resolution against the service outcome. -/
def checkInteractions (s : AppState) (svc : ServiceOutcome) : AppState :=
  if jsTrim s.drugs = "" then s
  else resolveQuery (startQuery s) svc

/-- The disabled attribute of the Analyze Interactions button (line 177). -/
def analyzeDisabled (s : AppState) : Bool :=
  s.loading || jsTrim s.drugs == ""

/-- The disabled attribute of the Get Started button (line 135). -/
def getStartedDisabled (s : AppState) : Bool :=
  jsTrim s.inputName == ""

/-- Line 111: the onboarding screen shows exactly when the session is not
onboarded. -/
def showsOnboardingScreen (s : AppState) : Bool :=
  !s.onboarded

/-- Line 191: the error box shows exactly when an error message is set. -/
def showsErrorBox (s : AppState) : Bool :=
  s.error.isSome

/-- The settings button (line 270): localStorage.clear() followed by a
reload, which re-creates the component state from the now-empty store. -/
def resetApp (s : AppState) : AppState :=
  initState s.storage.clear

/-! ## Result rendering

The TypeScript interfaces (lines 6-17) as record types. AlertIcon takes
severity as an arbitrary string at runtime (the union type on line 7 is
erased), so severity is a String here. -/

structure InteractionResult where
  severity : String
  drugs : List String
  mechanism : String
  clinicalEffect : String
  recommendation : String

structure DDIResponse where
  interactions : List InteractionResult
  summary : String

/-- The value a JavaScript property read on the colors object literal can
produce: an own string property, a member inherited from Object.prototype
(a function, or for the proto accessor the prototype object itself — in
either case a truthy non-string), or undefined. -/
inductive JsProp where
  | ownString (s : String)
  | inherited (name : String)
  | undefined
deriving DecidableEq

/-- The property keys every plain object literal inherits from
Object.prototype (ECMA-262 plus the legacy accessor methods all current
engines ship); each is bound to a truthy member. -/
def objectPrototypeMembers : List String :=
  ["constructor", "hasOwnProperty", "isPrototypeOf", "propertyIsEnumerable",
   "toLocaleString", "toString", "valueOf", "__proto__", "__defineGetter__",
   "__defineSetter__", "__lookupGetter__", "__lookupSetter__"]

/-- The lookup colors[severity] on the object literal of lines 29-34:
an own property for the four bound keys; otherwise, because JavaScript
property access consults the prototype chain, the member inherited from
Object.prototype when severity names one; otherwise undefined. -/
def colorsLookup (severity : String) : JsProp :=
  if severity = "Minor" then .ownString "text-blue-500"
  else if severity = "Moderate" then .ownString "text-yellow-500"
  else if severity = "Major" then .ownString "text-orange-500"
  else if severity = "Contraindicated" then .ownString "text-red-600"
  else if severity ∈ objectPrototypeMembers then .inherited severity
  else .undefined

/-- The className value AlertIcon computes: a string, or a truthy
non-string inherited member passed through by the logical-or (its later
string coercion is host-defined and in any case not the gray class). -/
inductive ClassName where
  | str (s : String)
  | inherited (name : String)
deriving DecidableEq

/-- AlertIcon (lines 28-38): colors[severity] || gray. Only a falsy
lookup result (undefined) makes the logical-or substitute the gray
fallback; the four own tier strings and any truthy inherited
Object.prototype member pass through. -/
def alertIconColor (severity : String) : ClassName :=
  match colorsLookup severity with
  | .ownString s => .str s
  | .inherited name => .inherited name
  | .undefined => .str "text-gray-500"

/-- The observable content of one interaction card (lines 210-243). -/
structure RenderedCard where
  drugBadges : List String
  severityColor : ClassName
  severityLabel : String
  mechanism : String
  clinicalEffect : String
  recommendation : String

/-- One card of the map on line 210: the drug chips in order, the
AlertIcon tier and the severity label, and the three text sections. -/
def renderCard (i : InteractionResult) : RenderedCard :=
  { drugBadges := i.drugs
    severityColor := alertIconColor i.severity
    severityLabel := i.severity
    mechanism := i.mechanism
    clinicalEffect := i.clinicalEffect
    recommendation := i.recommendation }

/-- The observable content of the results block (lines 197-252). -/
structure RenderedResults where
  countBadge : String
  showsSummaryCard : Bool
  cards : List RenderedCard
  showsEmptyState : Bool

/-- The results block: the count badge interpolates the interactions
length (line 201), the summary card shows when summary is truthy
(line 204), one card per interaction in returned order (line 210), and
the empty-state affordance shows exactly when the length is zero
(line 245). -/
def renderResults (r : DDIResponse) : RenderedResults :=
  { countBadge := toString r.interactions.length ++ " Found"
    showsSummaryCard := r.summary != ""
    cards := r.interactions.map renderCard
    showsEmptyState := r.interactions.length == 0 }

/-! ## The Analysis Result shape of the spec

checkInteractions stores whatever JSON.parse produced, so to compare the
code with the shape the spec requires we also write that shape down. -/

/-- The first binding of a key in a JSON object, if any. -/
def Json.getField : Json → String → Option Json
  | .obj fields, k => (fields.find? (fun f => f.1 = k)).map (fun f => f.2)
  | _, _ => none

def Json.isString : Json → Bool
  | .str _ => true
  | _ => false

def Json.isStringArray : Json → Bool
  | .arr es => es.all Json.isString
  | _ => false

/-- Modelled from the spec: one item of the interactions array must carry
the five required fields, severity, mechanism, clinicalEffect and
recommendation as strings and drugs as a string array. -/
def specInteractionRecordShape (j : Json) : Bool :=
  (match j.getField "severity" with | some v => v.isString | none => false) &&
  (match j.getField "drugs" with | some v => v.isStringArray | none => false) &&
  (match j.getField "mechanism" with | some v => v.isString | none => false) &&
  (match j.getField "clinicalEffect" with | some v => v.isString | none => false) &&
  (match j.getField "recommendation" with | some v => v.isString | none => false)

/-- Modelled from the spec: the Analysis Result shape requires a top-level
interactions array of well-shaped records and a top-level summary string. -/
def specAnalysisResultShape (j : Json) : Bool :=
  (match j.getField "interactions" with
   | some (.arr items) => items.all specInteractionRecordShape
   | _ => false) &&
  (match j.getField "summary" with | some v => v.isString | none => false)

/-! ## The event-step relation

One step per user-visible event of the screen: editing either text field,
clicking Get Started, clicking Analyze Interactions when it is enabled
(which runs the synchronous Loading prefix), the pending service call
settling (only possible while loading), and the reset button. Reachable
states are those the initial load can step to. -/

inductive Step : AppState → AppState → Prop
  | editName (s : AppState) (t : String) : Step s { s with inputName := t }
  | editDrugs (s : AppState) (t : String) : Step s { s with drugs := t }
  | getStarted (s : AppState) : Step s (handleStart s)
  | analyzeClick (s : AppState) (h : analyzeDisabled s = false) : Step s (startQuery s)
  | analyzeSettle (s : AppState) (svc : ServiceOutcome) (h : s.loading = true) :
      Step s (resolveQuery s svc)
  | resetClick (s : AppState) : Step s (resetApp s)

def Reachable (storage : Storage) (s : AppState) : Prop :=
  Relation.ReflTransGen Step (initState storage) s

/-- The Request Lifecycle State reading of an AppState: Loading is the
loading flag, Success is a stored results value, Failed is a stored error
message, Idle is none of the three. Exactly one of the four holds. -/
def ExactlyOneLifecycle (s : AppState) : Prop :=
  (s.loading = false ∧ s.results = none ∧ s.error = none) ∨
  (s.loading = true ∧ s.results = none ∧ s.error = none) ∨
  (s.loading = false ∧ s.results ≠ none ∧ s.error = none) ∨
  (s.loading = false ∧ s.results = none ∧ s.error ≠ none)

/-! ## Helper lemmas -/

theorem Storage.getItem_setItem_same (st : Storage) (k v : String) :
    (st.setItem k v).getItem k = some v := by
  induction st with
  | nil => simp [Storage.setItem, Storage.getItem]
  | cons hd tl ih =>
    by_cases h : hd.1 = k
    · simp [Storage.setItem, Storage.getItem, h]
    · simpa [Storage.setItem, Storage.getItem, h] using ih

theorem Storage.getItem_setItem_other (st : Storage) (k k0 v : String) (h : k0 ≠ k) :
    (st.setItem k v).getItem k0 = st.getItem k0 := by
  induction st with
  | nil =>
    simp [Storage.setItem, Storage.getItem]
    exact fun hk => absurd hk.symm h
  | cons hd tl ih =>
    by_cases h1 : hd.1 = k
    · subst h1
      simp [Storage.setItem, Storage.getItem, Ne.symm h]
    · by_cases h2 : hd.1 = k0 <;> simp [Storage.setItem, Storage.getItem, h1, h2, h, ih]

theorem List.dropWhile_idem (p : Char → Bool) (l : List Char) :
    (l.dropWhile p).dropWhile p = l.dropWhile p := by
  induction l with
  | nil => rfl
  | cons a t ih =>
    by_cases h : p a
    · simpa [List.dropWhile_cons, h] using ih
    · simp [List.dropWhile_cons, h]

theorem List.dropWhile_eq_self_of_prefix (p : Char → Bool) (l2 l1 : List Char)
    (hpre : l2 <+: l1) (hfix : l1.dropWhile p = l1) : l2.dropWhile p = l2 := by
  cases l2 with
  | nil => rfl
  | cons a t =>
    obtain ⟨rest, hrest⟩ := hpre
    rw [← hrest] at hfix
    have hfix2 : (a :: (t ++ rest)).dropWhile p = a :: (t ++ rest) := by
      simpa using hfix
    have hpa : p a = false := by
      cases hp : p a
      · rfl
      · exfalso
        rw [List.dropWhile_cons] at hfix2
        simp only [hp, if_true] at hfix2
        have hle : ((t ++ rest).dropWhile p).length ≤ (t ++ rest).length :=
          ((List.dropWhile_suffix p).sublist).length_le
        have hlen := congrArg List.length hfix2
        simp only [List.length_cons] at hlen
        omega
    simp [List.dropWhile_cons, hpa]

theorem jsTrim_idem (s : String) : jsTrim (jsTrim s) = jsTrim s := by
  unfold jsTrim
  have h1 : ((((s.data.dropWhile jsWhitespace).reverse.dropWhile
      jsWhitespace).reverse : List Char).dropWhile jsWhitespace) =
      ((s.data.dropWhile jsWhitespace).reverse.dropWhile jsWhitespace).reverse := by
    apply List.dropWhile_eq_self_of_prefix jsWhitespace _ (s.data.dropWhile jsWhitespace)
    · rw [← List.reverse_suffix]
      simp [List.dropWhile_suffix]
    · exact List.dropWhile_idem jsWhitespace s.data
  simp only [String.data]
  rw [h1, List.reverse_reverse, List.dropWhile_idem]

/-- checkInteractions on non-empty trimmed input is the Loading prefix
followed by the resolution. -/
theorem checkInteractions_of_ne (s : AppState) (svc : ServiceOutcome)
    (h : jsTrim s.drugs ≠ "") :
    checkInteractions s svc = resolveQuery (startQuery s) svc := by
  unfold checkInteractions
  rw [if_neg h]

/-- checkInteractions never touches the drug text. -/
theorem checkInteractions_drugs (s : AppState) (svc : ServiceOutcome) :
    (checkInteractions s svc).drugs = s.drugs := by
  unfold checkInteractions startQuery resolveQuery
  by_cases h : jsTrim s.drugs = ""
  · simp [h]
  · cases svc with
    | throws => simp [h]
    | returns text =>
      simp only [h, if_false]
      cases Json.parse (textOrEmptyObject text) <;> simp

/-- Every event step keeps the lifecycle reading in exactly one of its
four states. -/
theorem exactlyOne_preserved {s t : AppState} (st : Step s t)
    (ih : ExactlyOneLifecycle s) : ExactlyOneLifecycle t := by
  cases st with
  | editName u => simpa [ExactlyOneLifecycle] using ih
  | editDrugs u => simpa [ExactlyOneLifecycle] using ih
  | getStarted =>
    unfold handleStart
    by_cases h : jsTrim s.inputName = "" <;> simpa [ExactlyOneLifecycle, h] using ih
  | analyzeClick h =>
    right; left
    simp [startQuery]
  | analyzeSettle svc h =>
    have hs : s.results = none ∧ s.error = none := by
      rcases ih with ⟨h1, _, _⟩ | ⟨_, h2, h3⟩ | ⟨h1, _, _⟩ | ⟨h1, _, _⟩
      · rw [h] at h1; cases h1
      · exact ⟨h2, h3⟩
      · rw [h] at h1; cases h1
      · rw [h] at h1; cases h1
    cases svc with
    | throws =>
      right; right; right
      simp [resolveQuery, hs.1]
    | returns text =>
      unfold resolveQuery
      cases hp : Json.parse (textOrEmptyObject text) with
      | some data =>
        right; right; left
        simp [hp, hs.2]
      | none =>
        right; right; right
        simp [hp, hs.1]
  | resetClick =>
    left
    simp [resetApp, initState]

/-- Every reachable state is in exactly one lifecycle state. -/
theorem reachable_exactlyOne (storage : Storage) (s : AppState)
    (h : Reachable storage s) : ExactlyOneLifecycle s := by
  induction h with
  | refl => exact Or.inl ⟨rfl, rfl, rfl⟩
  | tail _ st ih => exact exactlyOne_preserved st ih

/-! ## Concrete states for instantiations -/

/-- A freshly loaded session with non-empty drug text entered. -/
def sampleMain : AppState := { initState [] with drugs := "Warfarin, Aspirin" }

/-- A freshly loaded session whose drug text is whitespace only. -/
def sampleWhitespaceDrugs : AppState := { initState [] with drugs := "   " }

/-- A freshly loaded session whose typed agent name is surrounded by
whitespace. -/
def sampleNameInput : AppState := { initState [] with inputName := "  Dr. Smith  " }

/-! ## The claims -/

/-- C1: whenever checkInteractions runs with non-empty trimmed input and
the service call throws or the response text fails JSON parsing, the
resulting state is Failed with exactly the generic message, the stored
result is null (any previous Success result has been discarded), and
loading is off. -/
theorem checkInteractions_failure_generic (s : AppState) (svc : ServiceOutcome)
    (hne : jsTrim s.drugs ≠ "")
    (hfail : svc = ServiceOutcome.throws ∨
      ∃ text, svc = ServiceOutcome.returns text ∧
        Json.parse (textOrEmptyObject text) = none) :
    (checkInteractions s svc).error = some fetchErrorMessage ∧
    (checkInteractions s svc).results = none ∧
    (checkInteractions s svc).loading = false := by
  unfold checkInteractions
  rw [if_neg hne]
  rcases hfail with h | ⟨text, h, hp⟩
  · subst h
    exact ⟨rfl, rfl, rfl⟩
  · subst h
    unfold resolveQuery startQuery
    simp [hp]

/-- C1 witness: the failure postcondition at a concrete state and a
throwing service call. -/
theorem checkInteractions_failure_generic_witness :
    (checkInteractions sampleMain ServiceOutcome.throws).error = some fetchErrorMessage ∧
    (checkInteractions sampleMain ServiceOutcome.throws).results = none ∧
    (checkInteractions sampleMain ServiceOutcome.throws).loading = false :=
  checkInteractions_failure_generic sampleMain ServiceOutcome.throws
    (by decide) (Or.inl rfl)

/-- C2 counterexample: with non-empty drug text, a service response whose
text is the empty-object literal — valid JSON missing both required
fields of the Analysis Result shape — leaves the controller in Success:
the malformed value is stored and no error is set. The same holds for an
absent text payload, which line 101 replaces with that very literal. -/
theorem malformed_shape_reaches_success :
    (checkInteractions sampleMain (ServiceOutcome.returns (some "\x7b\x7d"))).results
      = some (Json.obj []) ∧
    (checkInteractions sampleMain (ServiceOutcome.returns (some "\x7b\x7d"))).error = none ∧
    (checkInteractions sampleMain (ServiceOutcome.returns none)).results
      = some (Json.obj []) ∧
    (checkInteractions sampleMain (ServiceOutcome.returns none)).error = none ∧
    specAnalysisResultShape (Json.obj []) = false :=
  ⟨rfl, rfl, rfl, rfl, rfl⟩

/-- C2 (amended): with non-empty trimmed input, a returned service
response leaves the controller Failed exactly when its text (after the
falsy substitution of line 101) is not valid JSON; any text JSON.parse
accepts — whatever its shape — is stored as-is and the controller ends in
Success. -/
theorem checkInteractions_failed_iff_unparsable (s : AppState) (text : Option String)
    (hne : jsTrim s.drugs ≠ "") :
    ((checkInteractions s (ServiceOutcome.returns text)).error = some fetchErrorMessage ∧
     (checkInteractions s (ServiceOutcome.returns text)).results = none) ↔
    Json.parse (textOrEmptyObject text) = none := by
  unfold checkInteractions
  rw [if_neg hne]
  unfold resolveQuery startQuery
  cases hp : Json.parse (textOrEmptyObject text) with
  | some data => simp [hp]
  | none => simp [hp]

/-- C2 witness: the amended equivalence at a concrete state and an
unparsable response text. -/
theorem checkInteractions_failed_iff_unparsable_witness :
    ((checkInteractions sampleMain (ServiceOutcome.returns (some "not json"))).error
        = some fetchErrorMessage ∧
     (checkInteractions sampleMain (ServiceOutcome.returns (some "not json"))).results
        = none) ↔
    Json.parse (textOrEmptyObject (some "not json")) = none :=
  checkInteractions_failed_iff_unparsable sampleMain (some "not json") (by decide)

/-- C3: when the drug text trims to empty, checkInteractions returns the
state unchanged whatever the service would do — loading, results and
error are all left as they were — and the submit control is disabled. -/
theorem empty_drugs_no_analyze (s : AppState) (svc : ServiceOutcome)
    (h : jsTrim s.drugs = "") :
    checkInteractions s svc = s ∧ analyzeDisabled s = true := by
  constructor
  · unfold checkInteractions
    rw [if_pos h]
  · simp [analyzeDisabled, h]

/-- C3 witness: the no-op at a concrete whitespace-only input. -/
theorem empty_drugs_no_analyze_witness :
    checkInteractions sampleWhitespaceDrugs ServiceOutcome.throws = sampleWhitespaceDrugs ∧
    analyzeDisabled sampleWhitespaceDrugs = true :=
  empty_drugs_no_analyze sampleWhitespaceDrugs ServiceOutcome.throws (by decide)

/-- C4 counterexample: the severity toString is none of the four known
values, yet it does not get the neutral fallback: the lookup
colors[severity] hits the truthy toString member inherited from
Object.prototype, so the logical-or never substitutes the gray class. -/
theorem alertIconColor_inherited_hit :
    alertIconColor "toString" = ClassName.inherited "toString" ∧
    alertIconColor "toString" ≠ ClassName.str "text-gray-500" ∧
    "toString" ∉ ["Minor", "Moderate", "Major", "Contraindicated"] := by
  decide

/-- C4 (amended): the severity-to-tier mapping is a function of the
severity string alone: the four known severities map to four
pairwise-distinct fixed tiers; every other string — except one naming a
member inherited from Object.prototype — maps to the single neutral
fallback tier; a severity naming an inherited member yields that truthy
member instead of the fallback, every time. -/
theorem alertIconColor_spec (sev : String)
    (h : sev ∉ ["Minor", "Moderate", "Major", "Contraindicated"])
    (hm : sev ∉ objectPrototypeMembers) :
    alertIconColor sev = ClassName.str "text-gray-500" ∧
    alertIconColor "Minor" = ClassName.str "text-blue-500" ∧
    alertIconColor "Moderate" = ClassName.str "text-yellow-500" ∧
    alertIconColor "Major" = ClassName.str "text-orange-500" ∧
    alertIconColor "Contraindicated" = ClassName.str "text-red-600" ∧
    List.Pairwise (fun a b => a ≠ b)
      [ClassName.str "text-blue-500", ClassName.str "text-yellow-500",
       ClassName.str "text-orange-500", ClassName.str "text-red-600",
       ClassName.str "text-gray-500"] ∧
    (∀ m ∈ objectPrototypeMembers, alertIconColor m = ClassName.inherited m) := by
  have h1 : sev ≠ "Minor" := fun e => h (by simp [e])
  have h2 : sev ≠ "Moderate" := fun e => h (by simp [e])
  have h3 : sev ≠ "Major" := fun e => h (by simp [e])
  have h4 : sev ≠ "Contraindicated" := fun e => h (by simp [e])
  refine ⟨?_, rfl, rfl, rfl, rfl, by decide, by decide⟩
  unfold alertIconColor colorsLookup
  rw [if_neg h1, if_neg h2, if_neg h3, if_neg h4, if_neg hm]

/-- C4 witness: the fallback tier at a concrete severity that is neither
a known value nor an inherited member name. -/
theorem alertIconColor_spec_witness :
    alertIconColor "Severe" = ClassName.str "text-gray-500" ∧
    alertIconColor "Minor" = ClassName.str "text-blue-500" ∧
    alertIconColor "Moderate" = ClassName.str "text-yellow-500" ∧
    alertIconColor "Major" = ClassName.str "text-orange-500" ∧
    alertIconColor "Contraindicated" = ClassName.str "text-red-600" ∧
    List.Pairwise (fun a b => a ≠ b)
      [ClassName.str "text-blue-500", ClassName.str "text-yellow-500",
       ClassName.str "text-orange-500", ClassName.str "text-red-600",
       ClassName.str "text-gray-500"] ∧
    (∀ m ∈ objectPrototypeMembers, alertIconColor m = ClassName.inherited m) :=
  alertIconColor_spec "Severe" (by decide) (by decide)

/-- C5: the results block renders exactly one card per interaction, in
returned order with no re-sorting or filtering, with the count badge
interpolating the length; the empty list yields the distinct empty-state
affordance together with the badge 0 Found. -/
theorem renderResults_spec (r : DDIResponse) :
    (renderResults r).cards = r.interactions.map renderCard ∧
    (renderResults r).cards.length = r.interactions.length ∧
    (renderResults r).countBadge = toString r.interactions.length ++ " Found" ∧
    ((renderResults r).showsEmptyState = true ↔ r.interactions = []) ∧
    (r.interactions = [] →
      (renderResults r).showsEmptyState = true ∧
      (renderResults r).countBadge = "0 Found") := by
  refine ⟨rfl, by simp [renderResults], rfl, ?_, ?_⟩
  · simp [renderResults, List.length_eq_zero]
  · intro he
    constructor
    · simp [renderResults, he]
    · rw [show (renderResults r).countBadge = toString r.interactions.length ++ " Found"
        from rfl, he]
      rfl

/-- C6: handleStart with a name that trims non-empty persists the trimmed
agent name and the onboarded flag and moves the session to onboarded;
with a name that trims to empty it is a no-op on the whole state,
persisted storage included. -/
theorem handleStart_spec (s : AppState) :
    (jsTrim s.inputName ≠ "" →
      (handleStart s).storage.getItem "d-di-agent-name" = some (jsTrim s.inputName) ∧
      (handleStart s).storage.getItem "d-di-onboarded" = some "true" ∧
      (handleStart s).onboarded = true ∧
      (handleStart s).agentName = jsTrim s.inputName) ∧
    (jsTrim s.inputName = "" → handleStart s = s) := by
  constructor
  · intro h
    have hst : (handleStart s).storage =
        (s.storage.setItem "d-di-agent-name" (jsTrim s.inputName)).setItem
          "d-di-onboarded" "true" := by
      unfold handleStart
      rw [if_pos h]
    have hon : (handleStart s).onboarded = true := by
      unfold handleStart
      rw [if_pos h]
    have hag : (handleStart s).agentName = jsTrim s.inputName := by
      unfold handleStart
      rw [if_pos h]
    refine ⟨?_, ?_, hon, hag⟩
    · rw [hst, Storage.getItem_setItem_other _ _ _ _ (by decide)]
      exact Storage.getItem_setItem_same _ _ _
    · rw [hst]
      exact Storage.getItem_setItem_same _ _ _
  · intro h
    unfold handleStart
    rw [if_neg (fun hne => hne h)]

/-- C7: every reachable state of the screen is in exactly one of the four
lifecycle states — Idle, Loading, Success, Failed — and every start of a
query with non-empty trimmed input passes unconditionally through the
Loading prefix, which clears any prior results value and any prior error
message. -/
theorem lifecycle_exactly_one (storage : Storage) (s : AppState)
    (h : Reachable storage s) :
    ExactlyOneLifecycle s ∧
    (∀ u : AppState, ∀ svc : ServiceOutcome, jsTrim u.drugs ≠ "" →
      checkInteractions u svc = resolveQuery (startQuery u) svc ∧
      (startQuery u).loading = true ∧
      (startQuery u).results = none ∧
      (startQuery u).error = none) := by
  refine ⟨reachable_exactlyOne storage s h, ?_⟩
  intro u svc hu
  refine ⟨?_, rfl, rfl, rfl⟩
  unfold checkInteractions
  rw [if_neg hu]

/-- C7 witness: the invariant at the freshly loaded state, and the
Loading transition at a concrete query. -/
theorem lifecycle_exactly_one_witness :
    ExactlyOneLifecycle (initState []) ∧
    checkInteractions sampleMain ServiceOutcome.throws
      = resolveQuery (startQuery sampleMain) ServiceOutcome.throws ∧
    (startQuery sampleMain).results = none ∧
    (startQuery sampleMain).error = none :=
  ⟨(lifecycle_exactly_one [] (initState []) Relation.ReflTransGen.refl).1,
   ((lifecycle_exactly_one [] (initState []) Relation.ReflTransGen.refl).2
      sampleMain ServiceOutcome.throws (by decide)).1,
   ((lifecycle_exactly_one [] (initState []) Relation.ReflTransGen.refl).2
      sampleMain ServiceOutcome.throws (by decide)).2.2.1,
   ((lifecycle_exactly_one [] (initState []) Relation.ReflTransGen.refl).2
      sampleMain ServiceOutcome.throws (by decide)).2.2.2⟩

/-- C8: the reset action wipes the whole persisted namespace — every key,
not only the two onboarding keys — and the session loaded after it reads
onboarded = false and presents the onboarding screen, whatever the prior
state was. -/
theorem resetApp_spec (s : AppState) :
    (resetApp s).storage = [] ∧
    (∀ k : String, (resetApp s).storage.getItem k = none) ∧
    (resetApp s).onboarded = false ∧
    showsOnboardingScreen (resetApp s) = true ∧
    resetApp s = initState [] :=
  ⟨rfl, fun _ => rfl, rfl, rfl, rfl⟩

/-- C9: checkInteractions is idempotent: running it twice in sequence
with the identical input text and the identical service outcome yields
the identical state both times, with no accumulation of the first run
into the second. -/
theorem checkInteractions_idempotent (s : AppState) (svc : ServiceOutcome) :
    checkInteractions (checkInteractions s svc) svc = checkInteractions s svc := by
  by_cases h : jsTrim s.drugs = ""
  · have h1 : checkInteractions s svc = s := by
      unfold checkInteractions
      rw [if_pos h]
    rw [h1, h1]
  · have hd : jsTrim (checkInteractions s svc).drugs ≠ "" := by
      rw [checkInteractions_drugs]
      exact h
    have hsq : startQuery (checkInteractions s svc) = startQuery s := by
      rw [checkInteractions_of_ne s svc h]
      cases svc with
      | throws => rfl
      | returns text =>
        simp only [resolveQuery]
        cases hp : Json.parse (textOrEmptyObject text) with
        | some data => rfl
        | none => rfl
    rw [checkInteractions_of_ne (checkInteractions s svc) svc hd, hsq,
      ← checkInteractions_of_ne s svc h]

/-- C10: after a successful onboarding the agent name held in state and
the persisted d-di-agent-name value are the trimmed form of the submitted
input, and trimming either again changes nothing: they carry no leading
or trailing whitespace even when the typed name was surrounded by it. -/
theorem handleStart_stores_trimmed (s : AppState) (h : jsTrim s.inputName ≠ "") :
    (handleStart s).agentName = jsTrim s.inputName ∧
    (handleStart s).storage.getItem "d-di-agent-name" = some (jsTrim s.inputName) ∧
    jsTrim (handleStart s).agentName = (handleStart s).agentName := by
  have hag : (handleStart s).agentName = jsTrim s.inputName := by
    unfold handleStart
    rw [if_pos h]
  refine ⟨hag, ?_, ?_⟩
  · have hst : (handleStart s).storage =
        (s.storage.setItem "d-di-agent-name" (jsTrim s.inputName)).setItem
          "d-di-onboarded" "true" := by
      unfold handleStart
      rw [if_pos h]
    rw [hst, Storage.getItem_setItem_other _ _ _ _ (by decide)]
    exact Storage.getItem_setItem_same _ _ _
  · rw [hag]
    exact jsTrim_idem _

/-- C10 witness: a name typed with surrounding whitespace is stored
trimmed, in state and in storage. -/
theorem handleStart_stores_trimmed_witness :
    (handleStart sampleNameInput).agentName = jsTrim sampleNameInput.inputName ∧
    (handleStart sampleNameInput).storage.getItem "d-di-agent-name"
      = some (jsTrim sampleNameInput.inputName) ∧
    jsTrim (handleStart sampleNameInput).agentName
      = (handleStart sampleNameInput).agentName :=
  handleStart_stores_trimmed sampleNameInput (by decide)
